import Mathlib

/-!
Formal model of the morphing Christmas-tree WebGL application.

The application keeps a discrete application state (tree view vs. scattered
gallery view), a smoothed morph progress value in the unit interval, a photo
population with a placeholder policy, and a webcam gesture pipeline that maps
classifier results to discrete SCATTER / GATHER commands.  Numeric state is
modelled over the rationals; geometric positions that involve trigonometric
functions are modelled over the reals further below.
-/

/-- The discrete application state from `src/types.ts`:
`export type AppState = 'TREE' | 'SCATTERED'`. -/
inductive AppState where
  | TREE : AppState
  | SCATTERED : AppState
deriving DecidableEq, Repr

/-- The discrete commands the gesture subsystem may forward,
from `onGesture: (command: 'SCATTER' | 'GATHER') => void`. -/
inductive GestureCommand where
  | SCATTER : GestureCommand
  | GATHER : GestureCommand
deriving DecidableEq, Repr

/-- One tick of the morph progress animation, from `MainScene.animate` in
`src/App.tsx`:

`const diff = target - prev;`
`if (Math.abs(diff) < 0.001) return target;`
`return prev + diff * 0.05;`

where `target = appState === 'SCATTERED' ? 1 : 0`. -/
def animateStep (target prev : ℚ) : ℚ :=
  if |target - prev| < 0.001 then target
  else prev + (target - prev) * 0.05

/-- `toggleState` from `src/App.tsx`:
`setAppState(prev => prev === 'TREE' ? 'SCATTERED' : 'TREE')`. -/
def toggleState (prev : AppState) : AppState :=
  if prev = AppState.TREE then AppState.SCATTERED else AppState.TREE

/-- `handleGesture` from `src/App.tsx`:

`if (command === 'SCATTER' && appState !== 'SCATTERED') setAppState('SCATTERED');`
`else if (command === 'GATHER' && appState !== 'TREE') setAppState('TREE');`. -/
def handleGesture (command : GestureCommand) (appState : AppState) : AppState :=
  if command = GestureCommand.SCATTER ∧ appState ≠ AppState.SCATTERED then
    AppState.SCATTERED
  else if command = GestureCommand.GATHER ∧ appState ≠ AppState.TREE then
    AppState.TREE
  else appState

/-- An entry of the photo population (`PhotoData` in `src/types.ts`); the
`id` and `aspectRatio` fields play no role in the claims and the `url` of an
uploaded file stands for the object URL created for it. -/
structure PhotoData where
  url : String
  isPlaceholder : Bool
deriving DecidableEq, Repr

/-- `PLACEHOLDER_URL` from `src/App.tsx` (the 1x1 dark grey pixel). -/
def PLACEHOLDER_URL : String :=
  "data:image/png;base64,iVBORw0KGgoAAAANSUhEUgAAAAEAAAABCAYAAAAfFcSJAAAADUlEQVR42mNk+M9QDwADhgGAWjR9awAAAABJRU5ErkJggg=="

/-- `MAX_PLACEHOLDERS` from `src/App.tsx`. -/
def MAX_PLACEHOLDERS : ℕ := 8

/-- `DEFAULT_PHOTOS` from `src/App.tsx`: 8 placeholder entries. -/
def DEFAULT_PHOTOS : List PhotoData :=
  List.replicate MAX_PLACEHOLDERS ⟨PLACEHOLDER_URL, true⟩

/-- The first loop of `handlePhotoUpload` in `src/App.tsx` (fill placeholders
first, in index order, while files remain), returning the updated population
together with the files left over for the append loop. -/
def fillPlaceholders : List PhotoData → List String → List PhotoData × List String
  | prev, [] => (prev, [])
  | [], files => ([], files)
  | p :: ps, f :: fs =>
    if p.isPlaceholder then
      let r := fillPlaceholders ps fs
      (⟨f, false⟩ :: r.1, r.2)
    else
      let r := fillPlaceholders ps (f :: fs)
      (p :: r.1, r.2)

/-- `handlePhotoUpload` from `src/App.tsx`: fill placeholders in index order,
then append the remaining files at the end. -/
def handlePhotoUpload (prev : List PhotoData) (files : List String) : List PhotoData :=
  let r := fillPlaceholders prev files
  r.1 ++ r.2.map (fun f => ⟨f, false⟩)

/-- One ranked classifier result, from `results.gestures[0][0]` in
`src/components/GestureController.tsx` (`categoryName` and `score`). -/
structure GestureResult where
  categoryName : String
  score : ℚ
deriving DecidableEq, Repr

/-- One webcam frame as seen by `predictWebcam`: the video element's
`currentTime` and the ranked gesture candidates for the first detected hand
(`results.gestures[0]`), empty when no hand is detected
(`results.gestures.length === 0`). -/
structure VideoFrame where
  currentTime : ℚ
  gestures : List GestureResult
deriving DecidableEq, Repr

/-- The command-emitting core of `predictWebcam` in
`src/components/GestureController.tsx`.  The state threaded through is
`lastVideoTimeRef.current`; the result is the new state together with the
list of commands forwarded to `onGesture` while processing this frame:

`if (video.currentTime !== lastVideoTimeRef.current) { ... }` (else skip);
`if (results.gestures.length > 0) { const gesture = results.gestures[0][0];`
`  if (score > 0.5) { if (name === 'Open_Palm') onGesture('SCATTER');`
`    else if (name === 'Closed_Fist') onGesture('GATHER'); } }`. -/
def predictWebcamStep (lastVideoTime : ℚ) (frame : VideoFrame) :
    ℚ × List GestureCommand :=
  if frame.currentTime = lastVideoTime then (lastVideoTime, [])
  else
    match frame.gestures with
    | [] => (frame.currentTime, [])
    | gesture :: _ =>
      if gesture.score > 0.5 then
        if gesture.categoryName = "Open_Palm" then
          (frame.currentTime, [GestureCommand.SCATTER])
        else if gesture.categoryName = "Closed_Fist" then
          (frame.currentTime, [GestureCommand.GATHER])
        else (frame.currentTime, [])
      else (frame.currentTime, [])

/-- The state of the Morph Progress Controller: the discrete target state and
the smoothed progress value. -/
structure MorphState where
  appState : AppState
  progress : ℚ
deriving DecidableEq, Repr

/-- Outcome of the asynchronous model load in `loadModel`
(`src/components/GestureController.tsx`): the `try` block either succeeds or
throws (caught by `catch (error)`). -/
inductive LoadOutcome where
  | success : LoadOutcome
  | failure : LoadOutcome
deriving DecidableEq, Repr

/-- Outcome of `navigator.mediaDevices.getUserMedia` in `startCamera`:
granted, or denied (caught by `catch (e)`). -/
inductive CameraOutcome where
  | granted : CameraOutcome
  | denied : CameraOutcome
deriving DecidableEq, Repr

/-- The local state of the gesture subsystem
(`src/components/GestureController.tsx`): the `loading` flag, whether
`recognizerRef.current` is set, and the `enabled` flag. -/
structure GestureState where
  loading : Bool
  recognizerLoaded : Bool
  enabled : Bool
deriving DecidableEq, Repr

/-- `loadModel` from `src/components/GestureController.tsx`, as a step on the
gesture-subsystem state paired with the commands forwarded to `onGesture`
(none, on either path): on success the recognizer is stored; on failure the
`catch` only logs; `finally` clears `loading`. -/
def loadModelStep (outcome : LoadOutcome) (g : GestureState) :
    GestureState × List GestureCommand :=
  match outcome with
  | LoadOutcome.success => (⟨false, true, g.enabled⟩, [])
  | LoadOutcome.failure => (⟨false, g.recognizerLoaded, g.enabled⟩, [])

/-- `startCamera` from `src/components/GestureController.tsx`: returns at once
when no recognizer is loaded; on a granted stream it enables the webcam view;
a denial is caught and only logged.  No path forwards a command. -/
def startCameraStep (outcome : CameraOutcome) (g : GestureState) :
    GestureState × List GestureCommand :=
  if ¬ g.recognizerLoaded then (g, [])
  else
    match outcome with
    | CameraOutcome.granted => (⟨g.loading, g.recognizerLoaded, true⟩, [])
    | CameraOutcome.denied => (g, [])

/-- Deliver a list of gesture commands to the Morph Progress Controller, each
through `handleGesture`; the progress value is untouched by command delivery. -/
def applyCommands (m : MorphState) (cs : List GestureCommand) : MorphState :=
  cs.foldl (fun m c => ⟨handleGesture c m.appState, m.progress⟩) m

/-- The state of the whole application relevant to gesture failures: the
gesture subsystem's state, its `lastVideoTimeRef`, and the morph controller. -/
structure SystemState where
  gesture : GestureState
  lastVideoTime : ℚ
  morph : MorphState
deriving DecidableEq, Repr

/-- The external events acting on `SystemState`: completion of the model load,
completion of a camera request, and the manual toggle button. -/
inductive SysInput where
  | modelLoad : LoadOutcome → SysInput
  | cameraStart : CameraOutcome → SysInput
  | toggle : SysInput
deriving DecidableEq, Repr

/-- The combined transition: gesture-subsystem events route their emitted
commands into the morph controller; the manual toggle (`toggleState` in
`src/App.tsx`) acts directly on the morph controller in every
gesture-subsystem state. -/
def systemStep (input : SysInput) (s : SystemState) : SystemState :=
  match input with
  | SysInput.modelLoad o =>
    let r := loadModelStep o s.gesture
    ⟨r.1, s.lastVideoTime, applyCommands s.morph r.2⟩
  | SysInput.cameraStart o =>
    let r := startCameraStep o s.gesture
    ⟨r.1, s.lastVideoTime, applyCommands s.morph r.2⟩
  | SysInput.toggle =>
    ⟨s.gesture, s.lastVideoTime, ⟨toggleState s.morph.appState, s.morph.progress⟩⟩

/-- Per-frame idle-spin update of the foliage points' rotation about the
vertical axis (`src/components/Foliage.tsx`):
`if (progress < 0.5) meshRef.current.rotation.y += 0.002;`. -/
def foliageFrameRotY (rotY progress : ℚ) : ℚ :=
  if progress < 0.5 then rotY + 0.002 else rotY

/-- Per-frame idle-spin update of the ornament instanced mesh
(`src/components/TreeAccessories.tsx`, `Ornaments`):
`if (progress < 0.5) meshRef.current.rotation.y += 0.002;`. -/
def ornamentsFrameRotY (rotY progress : ℚ) : ℚ :=
  if progress < 0.5 then rotY + 0.002 else rotY

/-- Per-frame idle-spin update of the gift-box instanced mesh
(`src/components/TreeAccessories.tsx`, `GiftBoxes`):
`if (progress < 0.5) meshRef.current.rotation.y += 0.002;`. -/
def giftBoxesFrameRotY (rotY progress : ℚ) : ℚ :=
  if progress < 0.5 then rotY + 0.002 else rotY

/-- A three-component vector, standing for `THREE.Vector3`. -/
@[ext]
structure Vec3 where
  x : ℝ
  y : ℝ
  z : ℝ

/-- `THREE.Vector3.lerpVectors(v1, v2, alpha)`: componentwise
`v1 + (v2 - v1) * alpha`. -/
def lerpVectors (v1 v2 : Vec3) (alpha : ℝ) : Vec3 :=
  ⟨v1.x + (v2.x - v1.x) * alpha,
   v1.y + (v2.y - v1.y) * alpha,
   v1.z + (v2.z - v1.z) * alpha⟩

/-- `TREE_HEIGHT` from `src/utils/math.ts`. -/
def TREE_HEIGHT : ℝ := 12

/-- `TREE_RADIUS` from `src/utils/math.ts`. -/
def TREE_RADIUS : ℝ := 4

/-- `SCATTER_RADIUS` from `src/utils/math.ts`. -/
def SCATTER_RADIUS : ℝ := 15

/-- `getTreePosition` from `src/utils/math.ts`:

`const y = (index / total) * TREE_HEIGHT - (TREE_HEIGHT / 2);`
`const radius = ((TREE_HEIGHT / 2) - y) * (TREE_RADIUS / TREE_HEIGHT) * 1.5;`
`const angle = index * 0.5;`
`return new THREE.Vector3(Math.cos(angle) * radius, y, Math.sin(angle) * radius);`. -/
noncomputable def getTreePosition (index total : ℕ) : Vec3 :=
  let y : ℝ := ((index : ℝ) / (total : ℝ)) * TREE_HEIGHT - TREE_HEIGHT / 2
  let radius : ℝ := (TREE_HEIGHT / 2 - y) * (TREE_RADIUS / TREE_HEIGHT) * 1.5
  let angle : ℝ := (index : ℝ) * 0.5
  ⟨Real.cos angle * radius, y, Real.sin angle * radius⟩

/-- `getScatterPosition` from `src/utils/math.ts`.  The three `Math.random()`
draws are passed explicitly as `u1 u2 u3`; the `index` parameter is kept from
the source signature:

`const theta = Math.random() * Math.PI * 2;`
`const phi = Math.acos((Math.random() * 2) - 1);`
`const r = 8 + Math.random() * SCATTER_RADIUS;`
`return new THREE.Vector3(r * sin(phi) * cos(theta), r * sin(phi) * sin(theta), r * cos(phi));`. -/
noncomputable def getScatterPosition (index : ℕ) (u1 u2 u3 : ℝ) : Vec3 :=
  let theta : ℝ := u1 * Real.pi * 2
  let phi : ℝ := Real.arccos (u2 * 2 - 1)
  let r : ℝ := 8 + u3 * SCATTER_RADIUS
  ⟨r * Real.sin phi * Real.cos theta,
   r * Real.sin phi * Real.sin theta,
   r * Real.cos phi⟩

/-- The result of `getGalleryPosition`: the position, and the target the
orientation dummy is aimed at (`dummy.lookAt(0, 0, 0)` in the source; the
returned Euler rotation is the look-at rotation toward that target). -/
structure GalleryPlacement where
  pos : Vec3
  lookTarget : Vec3

/-- `getGalleryPosition` from `src/utils/math.ts`:

`const radius = 6;`
`const angleStep = (Math.PI * 2) / Math.min(total, 8);`
`const ringIndex = Math.floor(index / 8);`
`const positionInRing = index % 8;`
`const angle = positionInRing * angleStep;`
`const y = ringIndex * 2.5 - 2;`
`const pos = new THREE.Vector3(Math.cos(angle) * radius, y, Math.sin(angle) * radius);`
`dummy.lookAt(0, 0, 0);`. -/
noncomputable def getGalleryPosition (index total : ℕ) : GalleryPlacement :=
  let radius : ℝ := 6
  let angleStep : ℝ := (Real.pi * 2) / (min total 8 : ℕ)
  let ringIndex : ℕ := index / 8
  let positionInRing : ℕ := index % 8
  let angle : ℝ := (positionInRing : ℝ) * angleStep
  let y : ℝ := (ringIndex : ℝ) * 2.5 - 2
  ⟨⟨Real.cos angle * radius, y, Real.sin angle * radius⟩, ⟨0, 0, 0⟩⟩

/-- The per-frame position written for ornament `i` in `Ornaments`
(`src/components/TreeAccessories.tsx`):

`const pos = new THREE.Vector3().lerpVectors(d.treePos, d.scatterPos, progress);`
`pos.y += Math.sin(time + d.phase) * 0.05;`. -/
noncomputable def ornamentsFramePos (treePos scatterPos : Vec3)
    (progress time phase : ℝ) : Vec3 :=
  let pos := lerpVectors treePos scatterPos progress
  ⟨pos.x, pos.y + Real.sin (time + phase) * 0.05, pos.z⟩

/-- The per-frame position written for gift box `i` in `GiftBoxes`
(`src/components/TreeAccessories.tsx`):

`const pos = new THREE.Vector3().lerpVectors(d.treePos, d.scatterPos, progress);`
`pos.y += Math.sin(time * 0.5 + d.phase) * 0.02;`. -/
noncomputable def giftBoxesFramePos (treePos scatterPos : Vec3)
    (progress time phase : ℝ) : Vec3 :=
  let pos := lerpVectors treePos scatterPos progress
  ⟨pos.x, pos.y + Real.sin (time * 0.5 + phase) * 0.02, pos.z⟩

/-- The per-frame interpolated target of `PhotoItem`
(`src/components/Foliage.tsx`, photo gallery part):

`const targetPos = new THREE.Vector3().lerpVectors(treePos, galleryPos, progress);`
`targetPos.y += Math.sin(state.clock.elapsedTime + index) * 0.05;`. -/
noncomputable def photoFrameTarget (treePos galleryPos : Vec3)
    (progress time : ℝ) (index : ℕ) : Vec3 :=
  let targetPos := lerpVectors treePos galleryPos progress
  ⟨targetPos.x, targetPos.y + Real.sin (time + (index : ℝ)) * 0.05, targetPos.z⟩

/-- The per-frame position written for a `PhotoItem` group:
`groupRef.current.position.lerp(targetPos, 0.1)`, i.e. the current position
moved 10 percent of the way toward the interpolated target. -/
noncomputable def photoFramePos (current treePos galleryPos : Vec3)
    (progress time : ℝ) (index : ℕ) : Vec3 :=
  lerpVectors current (photoFrameTarget treePos galleryPos progress time index) 0.1

lemma smoothing_const : (0.05 : ℚ) = 1 / 20 := by norm_num

lemma animateStep_snap (t p : ℚ) (h : |t - p| < 0.001) : animateStep t p = t := by
  simp [animateStep, h]

/-- Each tick multiplies the remaining distance to the target by at most
19/20 (exactly, off the snap branch; the snap branch brings it to 0). -/
lemma animateStep_dist (t p : ℚ) : |t - animateStep t p| ≤ 19 / 20 * |t - p| := by
  unfold animateStep
  split_ifs with h
  · simp only [sub_self, abs_zero]
    positivity
  · have hrw : t - (p + (t - p) * 0.05) = 19 / 20 * (t - p) := by
      rw [smoothing_const]; ring
    rw [hrw, abs_mul, abs_of_nonneg (by norm_num : (0:ℚ) ≤ 19 / 20)]

lemma animateStep_iterate_dist (t p : ℚ) (n : ℕ) :
    |t - (animateStep t)^[n] p| ≤ (19 / 20) ^ n * |t - p| := by
  induction n with
  | zero => simp
  | succ n ih =>
    rw [Function.iterate_succ_apply']
    calc |t - animateStep t ((animateStep t)^[n] p)|
        ≤ 19 / 20 * |t - (animateStep t)^[n] p| := animateStep_dist _ _
      _ ≤ 19 / 20 * ((19 / 20) ^ n * |t - p|) :=
          mul_le_mul_of_nonneg_left ih (by norm_num)
      _ = (19 / 20) ^ (n + 1) * |t - p| := by ring

/-- C1: For every progress value `p` in the unit interval and target
`t ∈ {0, 1}`, one tick of `animateStep` snaps exactly to `t` when the
remaining distance is below 0.001, otherwise moves by exactly 5 percent of
the remaining distance; the result stays between `p` and `t` (no overshoot)
and in the unit interval, and 136 ticks from any start reach `t` exactly. -/
theorem animateStep_approaches_target (t p : ℚ) (ht : t = 0 ∨ t = 1)
    (hp0 : 0 ≤ p) (hp1 : p ≤ 1) :
    (|t - p| < 0.001 → animateStep t p = t)
    ∧ (¬ |t - p| < 0.001 → animateStep t p - p = (t - p) * 0.05)
    ∧ min p t ≤ animateStep t p
    ∧ animateStep t p ≤ max p t
    ∧ 0 ≤ animateStep t p
    ∧ animateStep t p ≤ 1
    ∧ (animateStep t)^[136] p = t := by
  have hbetween : min p t ≤ animateStep t p ∧ animateStep t p ≤ max p t := by
    rcases ht with rfl | rfl
    · rw [min_eq_right hp0, max_eq_left hp0]
      unfold animateStep
      split_ifs with h
      · exact ⟨le_rfl, hp0⟩
      · rw [smoothing_const]
        constructor <;> linarith
    · rw [min_eq_left hp1, max_eq_right hp1]
      unfold animateStep
      split_ifs with h
      · exact ⟨hp1, le_rfl⟩
      · rw [smoothing_const]
        constructor <;> linarith
  have hunit : 0 ≤ animateStep t p ∧ animateStep t p ≤ 1 := by
    rcases ht with rfl | rfl
    · have h1 := hbetween.1
      have h2 := hbetween.2
      rw [min_eq_right hp0] at h1
      rw [max_eq_left hp0] at h2
      exact ⟨h1, le_trans h2 hp1⟩
    · have h1 := hbetween.1
      have h2 := hbetween.2
      rw [min_eq_left hp1] at h1
      rw [max_eq_right hp1] at h2
      exact ⟨le_trans hp0 h1, h2⟩
  refine ⟨animateStep_snap t p, ?_, hbetween.1, hbetween.2, hunit.1, hunit.2, ?_⟩
  · intro h
    unfold animateStep
    rw [if_neg h]
    ring
  · have hd1 : |t - p| ≤ 1 := by
      rw [abs_le]; rcases ht with rfl | rfl <;> constructor <;> linarith
    have h135 : |t - (animateStep t)^[135] p| < 0.001 := by
      calc |t - (animateStep t)^[135] p|
          ≤ (19 / 20) ^ 135 * |t - p| := animateStep_iterate_dist t p 135
        _ ≤ (19 / 20) ^ 135 * 1 :=
            mul_le_mul_of_nonneg_left hd1 (by positivity)
        _ < 0.001 := by norm_num
    have h136 : (136 : ℕ) = 135 + 1 := rfl
    rw [h136, Function.iterate_succ_apply']
    exact animateStep_snap t _ h135

/-- C1 witness: instantiating the approach theorem at target 1 from start 1/2. -/
theorem animateStep_approaches_target_witness :
    (0 : ℚ) ≤ 1 / 2 ∧ (1 / 2 : ℚ) ≤ 1 ∧ (animateStep 1)^[136] (1 / 2 : ℚ) = 1 :=
  ⟨by norm_num, by norm_num,
    (animateStep_approaches_target 1 (1 / 2) (Or.inr rfl) (by norm_num)
      (by norm_num)).2.2.2.2.2.2⟩

/-- C7: `handleGesture` is idempotent on the target state: applying SCATTER
when already SCATTERED is a no-op, likewise GATHER when already gathered
(TREE), a repeated SCATTER equals a single SCATTER and lands on SCATTERED,
and a repeated GATHER equals a single GATHER. -/
theorem handleGesture_idempotent (s : AppState) :
    handleGesture GestureCommand.SCATTER AppState.SCATTERED = AppState.SCATTERED
    ∧ handleGesture GestureCommand.GATHER AppState.TREE = AppState.TREE
    ∧ handleGesture GestureCommand.SCATTER (handleGesture GestureCommand.SCATTER s)
        = handleGesture GestureCommand.SCATTER s
    ∧ handleGesture GestureCommand.SCATTER s = AppState.SCATTERED
    ∧ handleGesture GestureCommand.GATHER (handleGesture GestureCommand.GATHER s)
        = handleGesture GestureCommand.GATHER s := by
  cases s <;> decide

/-- C9: In each of the three per-frame idle-spin updates (foliage points,
ornament instanced mesh, gift-box instanced mesh), a frame with progress
below 0.5 advances the vertical-axis rotation by exactly the fixed increment
0.002, and a frame with progress at or above 0.5 leaves it unchanged. -/
theorem idleSpin_stops_past_midpoint (rotY progress : ℚ) :
    (progress < 0.5 →
      foliageFrameRotY rotY progress = rotY + 0.002
      ∧ ornamentsFrameRotY rotY progress = rotY + 0.002
      ∧ giftBoxesFrameRotY rotY progress = rotY + 0.002)
    ∧ (0.5 ≤ progress →
      foliageFrameRotY rotY progress = rotY
      ∧ ornamentsFrameRotY rotY progress = rotY
      ∧ giftBoxesFrameRotY rotY progress = rotY) := by
  constructor
  · intro h
    refine ⟨?_, ?_, ?_⟩ <;>
      simp [foliageFrameRotY, ornamentsFrameRotY, giftBoxesFrameRotY, h]
  · intro h
    have h' : ¬ progress < 0.5 := not_lt.mpr h
    refine ⟨?_, ?_, ?_⟩ <;>
      simp [foliageFrameRotY, ornamentsFrameRotY, giftBoxesFrameRotY, h']

/-- C9 witness: a frame at progress 0.25 spins the foliage by 0.002; a frame
at progress 0.75 leaves the gift boxes' rotation unchanged. -/
theorem idleSpin_stops_past_midpoint_witness :
    foliageFrameRotY 1 0.25 = 1 + 0.002 ∧ giftBoxesFrameRotY 1 0.75 = 1 :=
  ⟨((idleSpin_stops_past_midpoint 1 0.25).1 (by norm_num)).1,
   ((idleSpin_stops_past_midpoint 1 0.75).2 (by norm_num)).2.2⟩

/-- C8: A model-load failure and a camera denial emit no gesture command and
leave the Morph Progress Controller's state (target and progress) unchanged,
and the manual toggle acts on the morph state in every gesture-subsystem
state, flipping the target while keeping the progress value. -/
theorem gestureFailure_leaves_morph_unchanged (s : SystemState) :
    (loadModelStep LoadOutcome.failure s.gesture).2 = []
    ∧ (startCameraStep CameraOutcome.denied s.gesture).2 = []
    ∧ (systemStep (SysInput.modelLoad LoadOutcome.failure) s).morph = s.morph
    ∧ (systemStep (SysInput.cameraStart CameraOutcome.denied) s).morph = s.morph
    ∧ (systemStep SysInput.toggle s).morph.appState = toggleState s.morph.appState
    ∧ (systemStep SysInput.toggle s).morph.progress = s.morph.progress := by
  have hload : (loadModelStep LoadOutcome.failure s.gesture).2 = [] := rfl
  have hcam : (startCameraStep CameraOutcome.denied s.gesture).2 = [] := by
    unfold startCameraStep
    split_ifs <;> rfl
  refine ⟨hload, hcam, ?_, ?_, rfl, rfl⟩
  · simp [systemStep, hload, applyCommands]
  · simp [systemStep, hcam, applyCommands]

/-- C4: `predictWebcamStep` skips a frame whose timestamp equals the last
processed one (no state change, no command); a frame with no detected hand,
with top confidence at most 0.5, or with an unrecognized top label emits no
command; a fresh frame whose top label is `Open_Palm` with confidence above
0.5 emits exactly one SCATTER and records the timestamp; and re-processing
the same frame right after emits nothing. -/
theorem predictWebcam_command_mapping (lv : ℚ) (f : VideoFrame) (g : GestureResult) :
    (f.currentTime = lv → predictWebcamStep lv f = (lv, []))
    ∧ (f.gestures = [] → (predictWebcamStep lv f).2 = [])
    ∧ (f.gestures.head? = some g → g.score ≤ 0.5 → (predictWebcamStep lv f).2 = [])
    ∧ (f.gestures.head? = some g → g.categoryName ≠ "Open_Palm" →
        g.categoryName ≠ "Closed_Fist" → (predictWebcamStep lv f).2 = [])
    ∧ (f.currentTime ≠ lv → f.gestures.head? = some g → 0.5 < g.score →
        g.categoryName = "Open_Palm" →
        predictWebcamStep lv f = (f.currentTime, [GestureCommand.SCATTER]))
    ∧ (predictWebcamStep (predictWebcamStep lv f).1 f).2 = [] := by
  refine ⟨?_, ?_, ?_, ?_, ?_, ?_⟩
  · intro h
    simp [predictWebcamStep, h]
  · intro h
    unfold predictWebcamStep
    rw [h]
    split_ifs <;> rfl
  · intro hg hs
    unfold predictWebcamStep
    split_ifs with h
    · rfl
    · cases hgs : f.gestures with
      | nil => rfl
      | cons a l =>
        rw [hgs, List.head?_cons, Option.some_inj] at hg
        subst hg
        dsimp only
        rw [if_neg (not_lt.mpr hs)]
  · intro hg hopen hfist
    unfold predictWebcamStep
    split_ifs with h
    · rfl
    · cases hgs : f.gestures with
      | nil => rfl
      | cons a l =>
        rw [hgs, List.head?_cons, Option.some_inj] at hg
        subst hg
        dsimp only
        split_ifs <;> rfl
  · intro hne hg hs hopen
    unfold predictWebcamStep
    rw [if_neg hne]
    cases hgs : f.gestures with
    | nil => rw [hgs] at hg; exact absurd hg (by simp)
    | cons a l =>
      rw [hgs] at hg
      rw [List.head?_cons, Option.some_inj] at hg
      subst hg
      dsimp only
      rw [if_pos hs, if_pos hopen]
  · by_cases h : f.currentTime = lv
    · have h1 : predictWebcamStep lv f = (lv, []) := by simp [predictWebcamStep, h]
      rw [h1]
      simp [predictWebcamStep, h]
    · have h1 : (predictWebcamStep lv f).1 = f.currentTime := by
        unfold predictWebcamStep
        rw [if_neg h]
        cases f.gestures with
        | nil => rfl
        | cons a l =>
          dsimp only
          split_ifs <;> rfl
      rw [h1]
      simp [predictWebcamStep]

/-- C4 witness: an `Open_Palm` at confidence 0.8 on a fresh frame emits one
SCATTER; re-processing the identical timestamp emits nothing. -/
theorem predictWebcam_command_mapping_witness :
    predictWebcamStep 0 ⟨1, [⟨"Open_Palm", 0.8⟩]⟩
      = ((1 : ℚ), [GestureCommand.SCATTER])
    ∧ (predictWebcamStep (predictWebcamStep 0 ⟨1, [⟨"Open_Palm", 0.8⟩]⟩).1
        ⟨1, [⟨"Open_Palm", 0.8⟩]⟩).2 = [] :=
  ⟨(predictWebcam_command_mapping 0 ⟨1, [⟨"Open_Palm", 0.8⟩]⟩
      ⟨"Open_Palm", 0.8⟩).2.2.2.2.1 (by norm_num) rfl (by norm_num) rfl,
   (predictWebcam_command_mapping 0 ⟨1, [⟨"Open_Palm", 0.8⟩]⟩
      ⟨"Open_Palm", 0.8⟩).2.2.2.2.2⟩

lemma fillPlaceholders_fst_length (prev : List PhotoData) (files : List String) :
    (fillPlaceholders prev files).1.length = prev.length := by
  induction prev generalizing files with
  | nil => cases files <;> simp [fillPlaceholders]
  | cons p ps ih =>
    cases files with
    | nil => simp [fillPlaceholders]
    | cons f fs =>
      simp only [fillPlaceholders]
      split_ifs <;> simp [ih]

lemma fillPlaceholders_snd_length (prev : List PhotoData) (files : List String) :
    (fillPlaceholders prev files).2.length
      = files.length - min files.length (prev.countP (fun q => q.isPlaceholder)) := by
  induction prev generalizing files with
  | nil => cases files <;> simp [fillPlaceholders]
  | cons p ps ih =>
    cases files with
    | nil => simp [fillPlaceholders]
    | cons f fs =>
      by_cases hp : p.isPlaceholder = true
      · have hcount : (p :: ps).countP (fun q => q.isPlaceholder)
            = ps.countP (fun q => q.isPlaceholder) + 1 := by
          simp [List.countP_cons, hp]
        simp only [fillPlaceholders, if_pos hp]
        rw [ih, hcount]
        simp only [List.length_cons]
        omega
      · have hcount : (p :: ps).countP (fun q => q.isPlaceholder)
            = ps.countP (fun q => q.isPlaceholder) := by
          simp [List.countP_cons, hp]
        simp only [fillPlaceholders, if_neg hp]
        rw [ih, hcount]

lemma fillPlaceholders_preserves_filled (prev : List PhotoData) (files : List String)
    (i : ℕ) (p : PhotoData) (hg : prev.get? i = some p)
    (hnp : p.isPlaceholder = false) :
    (fillPlaceholders prev files).1.get? i = some p := by
  induction prev generalizing files i with
  | nil => simp at hg
  | cons q ps ih =>
    cases files with
    | nil => simpa [fillPlaceholders] using hg
    | cons f fs =>
      simp only [fillPlaceholders]
      split_ifs with hq
      · cases i with
        | zero =>
          rw [List.get?_cons_zero, Option.some_inj] at hg
          subst hg
          rw [hq] at hnp
          exact absurd hnp (by simp)
        | succ n =>
          rw [List.get?_cons_succ] at hg
          dsimp only
          rw [List.get?_cons_succ]
          exact ih fs n hg
      · cases i with
        | zero =>
          rw [List.get?_cons_zero] at hg
          dsimp only
          rw [List.get?_cons_zero]
          exact hg
        | succ n =>
          rw [List.get?_cons_succ] at hg
          dsimp only
          rw [List.get?_cons_succ]
          exact ih (f :: fs) n hg

/-- C5: Uploading 3 files into the 8-placeholder default population replaces
exactly the placeholders at indices 0, 1, 2 in index order and keeps the
length at 8; uploading 10 files replaces all 8 placeholders and appends the
remaining 2, yielding length 10 in upload order.  In general the resulting
length is the original length plus the files left over after placeholder
filling, and an already-filled entry is never replaced. -/
theorem handlePhotoUpload_placeholder_policy (prev : List PhotoData)
    (files : List String) (i : ℕ) (p : PhotoData) :
    handlePhotoUpload DEFAULT_PHOTOS ["a", "b", "c"]
      = ⟨"a", false⟩ :: ⟨"b", false⟩ :: ⟨"c", false⟩ ::
        List.replicate 5 ⟨PLACEHOLDER_URL, true⟩
    ∧ (handlePhotoUpload DEFAULT_PHOTOS ["a", "b", "c"]).length = 8
    ∧ handlePhotoUpload DEFAULT_PHOTOS
        ["a", "b", "c", "d", "e", "f", "g", "h", "i", "j"]
      = ["a", "b", "c", "d", "e", "f", "g", "h", "i", "j"].map
          (fun u => (⟨u, false⟩ : PhotoData))
    ∧ (handlePhotoUpload DEFAULT_PHOTOS
        ["a", "b", "c", "d", "e", "f", "g", "h", "i", "j"]).length = 10
    ∧ (handlePhotoUpload prev files).length
        = prev.length
            + (files.length - min files.length (prev.countP (fun q => q.isPlaceholder)))
    ∧ (prev.get? i = some p → p.isPlaceholder = false →
        (handlePhotoUpload prev files).get? i = some p) := by
  refine ⟨by decide, by decide, by decide, by decide, ?_, ?_⟩
  · unfold handlePhotoUpload
    rw [List.length_append, List.length_map, fillPlaceholders_fst_length,
      fillPlaceholders_snd_length]
  · intro hg hnp
    obtain ⟨hi, -⟩ := List.get?_eq_some.mp hg
    unfold handlePhotoUpload
    rw [List.get?_append (by rw [fillPlaceholders_fst_length]; exact hi)]
    exact fillPlaceholders_preserves_filled prev files i p hg hnp

/-- C5 witness: a single already-filled entry survives an upload untouched. -/
theorem handlePhotoUpload_placeholder_policy_witness :
    (handlePhotoUpload [⟨"kept", false⟩] ["new"]).get? 0
      = some (⟨"kept", false⟩ : PhotoData) :=
  (handlePhotoUpload_placeholder_policy [⟨"kept", false⟩] ["new"] 0
    ⟨"kept", false⟩).2.2.2.2.2 rfl rfl

/-- C10: `getScatterPosition` ignores its `index` argument: with the same
three random draws, any two indices (in particular an index and the
`index + 1000` "offset seed" used by the gift boxes) give the same point. -/
theorem getScatterPosition_ignores_index (i j : ℕ) (u1 u2 u3 : ℝ) :
    getScatterPosition i u1 u2 u3 = getScatterPosition j u1 u2 u3
    ∧ getScatterPosition (i + 1000) u1 u2 u3 = getScatterPosition i u1 u2 u3 :=
  ⟨rfl, rfl⟩

/-- C2 counterexample: at progress 0 and time pi/2 (where the bobbing term
`sin(time + phase) * 0.05` equals 0.05) the position written by the ornament
frame update differs from the cached tree position. -/
theorem ornamentsFramePos_ne_cached_at_zero :
    ornamentsFramePos ⟨0, 0, 0⟩ ⟨1, 2, 3⟩ 0 (Real.pi / 2) 0 ≠ ⟨0, 0, 0⟩ := by
  intro h
  have hy : (ornamentsFramePos ⟨0, 0, 0⟩ ⟨1, 2, 3⟩ 0 (Real.pi / 2) 0).y = 0 := by
    rw [h]
  simp only [ornamentsFramePos, lerpVectors, add_zero, Real.sin_pi_div_two] at hy
  norm_num at hy

/-- C2 amended: the interpolated position (the `lerpVectors` output, before
the per-frame vertical bobbing offset) equals the cached tree position
exactly at progress 0 and the cached scattered/gallery position exactly at
progress 1; each population's frame update returns exactly that endpoint
with only the vertical bobbing term added. -/
theorem interpolated_position_exact_at_endpoints (a b : Vec3) (time phase : ℝ)
    (index : ℕ) :
    lerpVectors a b 0 = a
    ∧ lerpVectors a b 1 = b
    ∧ ornamentsFramePos a b 0 time phase
        = ⟨a.x, a.y + Real.sin (time + phase) * 0.05, a.z⟩
    ∧ ornamentsFramePos a b 1 time phase
        = ⟨b.x, b.y + Real.sin (time + phase) * 0.05, b.z⟩
    ∧ giftBoxesFramePos a b 0 time phase
        = ⟨a.x, a.y + Real.sin (time * 0.5 + phase) * 0.02, a.z⟩
    ∧ giftBoxesFramePos a b 1 time phase
        = ⟨b.x, b.y + Real.sin (time * 0.5 + phase) * 0.02, b.z⟩
    ∧ photoFrameTarget a b 0 time index
        = ⟨a.x, a.y + Real.sin (time + (index : ℝ)) * 0.05, a.z⟩
    ∧ photoFrameTarget a b 1 time index
        = ⟨b.x, b.y + Real.sin (time + (index : ℝ)) * 0.05, b.z⟩ := by
  refine ⟨?_, ?_, ?_, ?_, ?_, ?_, ?_, ?_⟩ <;>
    · apply Vec3.ext <;>
        simp only [ornamentsFramePos, giftBoxesFramePos, photoFrameTarget,
          lerpVectors] <;>
        ring

lemma cos_mul_sq_add_sin_mul_sq (a r : ℝ) :
    (Real.cos a * r) ^ 2 + (Real.sin a * r) ^ 2 = r ^ 2 := by
  linear_combination r ^ 2 * Real.sin_sq_add_cos_sq a

/-- C3 counterexample: at index 0 (with total 1) the tree position sits at
horizontal distance 6 from the axis, not at the distance 4 that a base
radius of 4 (radius `(TREE_HEIGHT/2 - y) * (TREE_RADIUS / TREE_HEIGHT)`
without the source's extra 1.5 factor) would give. -/
theorem getTreePosition_base_radius_not_four :
    (getTreePosition 0 1).x = 6
    ∧ (getTreePosition 0 1).x
        ≠ Real.cos (((0 : ℕ) : ℝ) * 0.5)
            * ((TREE_HEIGHT / 2 - (getTreePosition 0 1).y)
                * (TREE_RADIUS / TREE_HEIGHT)) := by
  have hx : (getTreePosition 0 1).x = 6 := by
    simp [getTreePosition, TREE_HEIGHT, TREE_RADIUS]
    norm_num
  have hy : (getTreePosition 0 1).y = -6 := by
    simp [getTreePosition, TREE_HEIGHT]
    norm_num
  refine ⟨hx, ?_⟩
  rw [hx, hy]
  simp [TREE_HEIGHT, TREE_RADIUS, Real.cos_zero]
  norm_num

/-- C3 amended (the base radius is 6 = TREE_RADIUS * 1.5, not 4): for every
index `i` and `total ≥ 1`, `getTreePosition i total` is the point
`(cos(0.5 i) * r, y, sin(0.5 i) * r)` with `y = (i/total) * 12 - 6` and
`r = (6 - y)/2`, the radius shrinks linearly as `6 * (1 - i/total)` from 6
at the bottom (`y = -6`, attained at index 0) to 0 at the apex (`y = 6`,
attained at index `total`), and the point lies on the spiral cone of height
12 and base radius 6 (`x^2 + z^2 = r^2`). -/
theorem getTreePosition_spiral_cone (i total : ℕ) (h : 1 ≤ total) :
    getTreePosition i total
      = ⟨Real.cos ((i : ℝ) * 0.5) * ((6 - ((i : ℝ) / (total : ℝ) * 12 - 6)) / 2),
         (i : ℝ) / (total : ℝ) * 12 - 6,
         Real.sin ((i : ℝ) * 0.5) * ((6 - ((i : ℝ) / (total : ℝ) * 12 - 6)) / 2)⟩
    ∧ (getTreePosition i total).y = (i : ℝ) / (total : ℝ) * 12 - 6
    ∧ (6 - ((i : ℝ) / (total : ℝ) * 12 - 6)) / 2 = 6 * (1 - (i : ℝ) / (total : ℝ))
    ∧ (getTreePosition i total).x ^ 2 + (getTreePosition i total).z ^ 2
        = (6 * (1 - (i : ℝ) / (total : ℝ))) ^ 2
    ∧ (getTreePosition 0 total).y = -6
    ∧ (getTreePosition 0 total).x = 6
    ∧ (getTreePosition 0 total).z = 0
    ∧ (getTreePosition total total).y = 6
    ∧ (getTreePosition total total).x = 0
    ∧ (getTreePosition total total).z = 0 := by
  have ht : (total : ℝ) ≠ 0 := Nat.cast_ne_zero.mpr (by omega)
  refine ⟨?_, ?_, ?_, ?_, ?_, ?_, ?_, ?_, ?_, ?_⟩
  · apply Vec3.ext <;> simp only [getTreePosition, TREE_HEIGHT, TREE_RADIUS] <;> ring
  · simp only [getTreePosition, TREE_HEIGHT]
    norm_num
  · ring
  · simp only [getTreePosition, TREE_HEIGHT, TREE_RADIUS]
    rw [cos_mul_sq_add_sin_mul_sq]
    ring
  · simp [getTreePosition, TREE_HEIGHT]
    norm_num
  · simp [getTreePosition, TREE_HEIGHT, TREE_RADIUS, Real.cos_zero]
    norm_num
  · simp [getTreePosition, TREE_HEIGHT, TREE_RADIUS, Real.sin_zero]
  · simp only [getTreePosition, TREE_HEIGHT, TREE_RADIUS]
    rw [div_self ht]
    norm_num
  · simp only [getTreePosition, TREE_HEIGHT, TREE_RADIUS]
    rw [div_self ht]
    ring
  · simp only [getTreePosition, TREE_HEIGHT, TREE_RADIUS]
    rw [div_self ht]
    ring

/-- C3 witness: the height coordinate at index 2 of 5. -/
theorem getTreePosition_spiral_cone_witness :
    (getTreePosition 2 5).y = ((2 : ℕ) : ℝ) / ((5 : ℕ) : ℝ) * 12 - 6 :=
  (getTreePosition_spiral_cone 2 5 (by norm_num)).2.1

/-- C6: `getGalleryPosition` places index `i` on ring `i / 8` at slot
`i % 8`: the height is `(i / 8) * 2.5 - 2` so each ring sits exactly 2.5
above the one below (and a ring neighbour `i + 8` keeps the same horizontal
position), the point lies at horizontal radius 6 from the vertical axis,
for `total = 10` index 0 is at ring 0 slot 0 and index 8 at ring 1 slot 0
with heights differing by exactly 2.5, and the orientation dummy is aimed at
the scene origin. -/
theorem getGalleryPosition_rings (i total : ℕ) (h : 1 ≤ total) :
    (getGalleryPosition i total).pos.y = ((i / 8 : ℕ) : ℝ) * 2.5 - 2
    ∧ (getGalleryPosition i total).pos.x
        = Real.cos (((i % 8 : ℕ) : ℝ) * (Real.pi * 2 / ((min total 8 : ℕ) : ℝ))) * 6
    ∧ (getGalleryPosition i total).pos.z
        = Real.sin (((i % 8 : ℕ) : ℝ) * (Real.pi * 2 / ((min total 8 : ℕ) : ℝ))) * 6
    ∧ (getGalleryPosition i total).pos.x ^ 2 + (getGalleryPosition i total).pos.z ^ 2
        = 6 ^ 2
    ∧ (getGalleryPosition (i + 8) total).pos.y
        = (getGalleryPosition i total).pos.y + 2.5
    ∧ (getGalleryPosition (i + 8) total).pos.x = (getGalleryPosition i total).pos.x
    ∧ (getGalleryPosition (i + 8) total).pos.z = (getGalleryPosition i total).pos.z
    ∧ (getGalleryPosition 0 10).pos = ⟨6, -2, 0⟩
    ∧ (getGalleryPosition 8 10).pos = ⟨6, 0.5, 0⟩
    ∧ (getGalleryPosition 8 10).pos.y = (getGalleryPosition 0 10).pos.y + 2.5
    ∧ (getGalleryPosition i total).lookTarget = ⟨0, 0, 0⟩ := by
  refine ⟨rfl, rfl, rfl, ?_, ?_, ?_, ?_, ?_, ?_, ?_, rfl⟩
  · exact cos_mul_sq_add_sin_mul_sq _ 6
  · simp only [getGalleryPosition, Nat.add_div_right i (by norm_num : 0 < 8)]
    push_cast
    ring
  · simp only [getGalleryPosition, Nat.add_mod_right]
  · simp only [getGalleryPosition, Nat.add_mod_right]
  · apply Vec3.ext <;>
      simp [getGalleryPosition, Real.cos_zero, Real.sin_zero] <;> norm_num
  · apply Vec3.ext <;>
      simp [getGalleryPosition, Real.cos_zero, Real.sin_zero] <;> norm_num
  · simp [getGalleryPosition]
    norm_num

/-- C6 witness: ring 1 sits exactly 2.5 above ring 0 in a 10-photo gallery. -/
theorem getGalleryPosition_rings_witness :
    (getGalleryPosition 8 10).pos.y = (getGalleryPosition 0 10).pos.y + 2.5 :=
  (getGalleryPosition_rings 0 10 (by norm_num)).2.2.2.2.2.2.2.2.2.1
